import Mathlib

/-!
Shallow embedding of `dbtemplates/admin.py` from django-dbtemplates.

The file under verification is the Django admin layer of the package: a
CodeMirror textarea widget, a model form for the `Template` model, and a
`TemplateAdmin` class with two bulk actions (`invalidate_cache` and
`repopulate_cache`) that delegate to external cache helpers and report a
pluralized status message to the user.

Pure data (template records, site records, admin configuration) is embedded
as Lean structures; the effectful bulk actions are embedded as functions
returning an explicit trace: the list of cache-helper calls made, the list
of user messages displayed, and the resulting template records.
-/

namespace Dbtemplates

/-- A site record as used by the admin layer: only its `name` is read. -/
structure Site where
  name : String
deriving Repr, DecidableEq

/-- A template record: name, content, timestamps and associated sites.
The admin layer reads these fields but never writes them. -/
structure Template where
  name : String
  content : String
  creation_date : Nat
  last_changed : Nat
  sites : List Site
deriving Repr, DecidableEq

/-- Python `sep.join(parts)`: the parts joined with `sep` between
consecutive parts, and the empty string for an empty list. -/
def pyJoin (sep : String) : List String → String
  | [] => ""
  | [s] => s
  | s :: rest => s ++ sep ++ pyJoin sep (rest)

/-- `TemplateAdmin.site_list`: joins the names of the sites of the given
template with a comma-space separator (source line
`", ".join([site.name for site in template.sites.all()])`). -/
def site_list (template : Template) : String :=
  pyJoin ", " (template.sites.map Site.name)

/-- The spelled-out tail of an intercalation: what follows the first part. -/
def joinTail (sep : String) : List String → String
  | [] => ""
  | s :: rest => sep ++ s ++ joinTail sep rest

theorem intercalate_go_eq (sep : String) :
    ∀ (parts : List String) (acc : String),
      String.intercalate.go acc sep parts = acc ++ joinTail sep parts := by
  intro parts
  induction parts with
  | nil => intro acc; simp [String.intercalate.go, joinTail]
  | cons s rest ih =>
      intro acc
      simp [String.intercalate.go, joinTail, ih, String.append_assoc]

theorem pyJoin_eq_intercalate (sep : String) (parts : List String) :
    pyJoin sep parts = String.intercalate sep parts := by
  induction parts with
  | nil => simp [pyJoin, String.intercalate]
  | cons s rest ih =>
      cases rest with
      | nil => simp [pyJoin, String.intercalate, String.intercalate.go]
      | cons s₂ rest₂ =>
          simp only [pyJoin, String.intercalate, intercalate_go_eq] at ih ⊢
          simp [joinTail, ← String.append_assoc] at ih ⊢
          rw [ih]
          simp [String.append_assoc]

/-- C8: for every template record, `site_list` returns the site names joined
by the separator `", "` in the order the site collection yields them, and
returns the empty string when the template has no associated sites. -/
theorem site_list_spec (template : Template) :
    site_list template = String.intercalate ", " (template.sites.map Site.name) ∧
    (template.sites = [] → site_list template = "") := by
  constructor
  · exact pyJoin_eq_intercalate ", " (template.sites.map Site.name)
  · intro h
    simp [site_list, h, pyJoin]

/-- Witness for C8 at concrete inputs: a template with two sites joins the
names with a comma and space, and a template with no sites yields `""`. -/
theorem site_list_spec_witness :
    site_list ⟨"base.html", "", 0, 0, []⟩ = "" ∧
    site_list ⟨"base.html", "", 0, 0, [⟨"a"⟩, ⟨"b"⟩]⟩ = "a, b" :=
  ⟨(site_list_spec ⟨"base.html", "", 0, 0, []⟩).2 rfl,
   by rw [(site_list_spec ⟨"base.html", "", 0, 0, [⟨"a"⟩, ⟨"b"⟩]⟩).1]; rfl⟩

/-- A call to one of the external cache helpers imported from
`dbtemplates.models`. The helpers themselves live outside the admin file;
the admin actions only invoke them, so a call trace records the behavior. -/
inductive CacheCall where
  | removeCachedTemplate : Template → CacheCall
  | addTemplateToCache : Template → CacheCall
deriving Repr, DecidableEq

/-- Observable outcome of running a bulk admin action: the cache-helper
calls made (in order), the messages shown via `message_user` (in order),
and the template records as they stand afterwards. -/
structure ActionResult where
  calls : List CacheCall
  messages : List String
  templates : List Template
deriving Repr, DecidableEq

/-- The `for template in queryset:` loop of a bulk action: one helper call
per template, in queryset order; the records themselves are not assigned. -/
def cacheLoop (helper : Template → CacheCall) : List Template → List CacheCall × List Template
  | [] => ([], [])
  | t :: rest =>
      let r := cacheLoop helper rest
      (helper t :: r.1, t :: r.2)

/-- Django `ungettext(singular, plural, n)` with no translation catalog
active: the singular text when `n = 1`, the plural text otherwise. -/
def ungettext (singular plural : String) (n : Nat) : String :=
  if n = 1 then singular else plural

/-- Python `%`-interpolation restricted to the one key the admin messages
use: every occurrence of `%(count)d` is replaced by the decimal rendering
of `n`; all other characters are kept. -/
def substCountAux (n : Nat) : List Char → List Char
  | '%' :: '(' :: 'c' :: 'o' :: 'u' :: 'n' :: 't' :: ')' :: 'd' :: rest =>
      (Nat.repr n).data ++ substCountAux n rest
  | c :: rest => c :: substCountAux n rest
  | [] => []

/-- String-level wrapper of `substCountAux`: `message % dict(count=n)`. -/
def pyFormatCount (s : String) (n : Nat) : String :=
  String.mk (substCountAux n s.data)

/-- `TemplateAdmin.invalidate_cache`: with no backend, show the error
message and stop; otherwise call `remove_cached_template` on each selected
template and show one pluralized success message. -/
def invalidate_cache (backend : Bool) (queryset : List Template) : ActionResult :=
  if !backend then
    { calls := [], messages := ["There is no active cache backend."],
      templates := queryset }
  else
    let r := cacheLoop CacheCall.removeCachedTemplate queryset
    let message := ungettext
      "Cache of one template successfully invalidated."
      "Cache of %(count)d templates successfully invalidated."
      queryset.length
    { calls := r.1,
      messages := [pyFormatCount message queryset.length],
      templates := r.2 }

/-- `TemplateAdmin.repopulate_cache`: with no backend, show the error
message and stop; otherwise call `add_template_to_cache` on each selected
template and show one pluralized success message. -/
def repopulate_cache (backend : Bool) (queryset : List Template) : ActionResult :=
  if !backend then
    { calls := [], messages := ["There is no active cache backend."],
      templates := queryset }
  else
    let r := cacheLoop CacheCall.addTemplateToCache queryset
    let message := ungettext
      "Cache successfully repopulated with one template."
      "Cache successfully repopulated with %(count)d templates."
      queryset.length
    { calls := r.1,
      messages := [pyFormatCount message queryset.length],
      templates := r.2 }

theorem cacheLoop_fst (helper : Template → CacheCall) (qs : List Template) :
    (cacheLoop helper qs).1 = qs.map helper := by
  induction qs with
  | nil => rfl
  | cons t rest ih => simp [cacheLoop, ih]

theorem cacheLoop_snd (helper : Template → CacheCall) (qs : List Template) :
    (cacheLoop helper qs).2 = qs := by
  induction qs with
  | nil => rfl
  | cons t rest ih => simp [cacheLoop, ih]

/-- C1: with no cache backend configured, both bulk actions display the
message "There is no active cache backend." and return at once: no cache
helper is called, no success message is shown, and the records are left
as they were. -/
theorem no_backend_short_circuit (qs : List Template) :
    invalidate_cache false qs =
      { calls := [], messages := ["There is no active cache backend."],
        templates := qs } ∧
    repopulate_cache false qs =
      { calls := [], messages := ["There is no active cache backend."],
        templates := qs } :=
  ⟨rfl, rfl⟩

/-- C2: with a cache backend configured, `invalidate_cache` calls
`remove_cached_template` exactly once per selected template, in queryset
order, and no other helper; `repopulate_cache` likewise calls exactly
`add_template_to_cache` once per selected template. -/
theorem backend_actions_call_helpers (qs : List Template) :
    (invalidate_cache true qs).calls = qs.map CacheCall.removeCachedTemplate ∧
    (repopulate_cache true qs).calls = qs.map CacheCall.addTemplateToCache := by
  constructor <;>
    simp [invalidate_cache, repopulate_cache, cacheLoop_fst]

/-- C3: with a cache backend configured, each action ends by displaying
exactly one status message whose count is the number of selected
templates: the singular text when exactly one template is selected, and
the plural text with the count substituted otherwise. -/
theorem backend_actions_success_message (qs : List Template) :
    (invalidate_cache true qs).messages =
      [if qs.length = 1 then "Cache of one template successfully invalidated."
       else "Cache of " ++ Nat.repr qs.length ++
         " templates successfully invalidated."] ∧
    (repopulate_cache true qs).messages =
      [if qs.length = 1 then "Cache successfully repopulated with one template."
       else "Cache successfully repopulated with " ++ Nat.repr qs.length ++
         " templates."] := by
  by_cases h : qs.length = 1
  · constructor <;> simp only [invalidate_cache, repopulate_cache, ungettext, h] <;> rfl
  · constructor <;> simp only [invalidate_cache, repopulate_cache, ungettext, if_neg h,
      Bool.not_true, Bool.false_eq_true, if_false] <;> rfl

/-- C7: neither bulk action mutates any template record: whatever the
backend flag and queryset, the records after the action are exactly the
records before it, every field included. -/
theorem actions_do_not_mutate_templates (backend : Bool) (qs : List Template) :
    (invalidate_cache backend qs).templates = qs ∧
    (repopulate_cache backend qs).templates = qs := by
  cases backend <;> constructor <;>
    simp [invalidate_cache, repopulate_cache, cacheLoop_snd]

/-- C9: with a cache backend configured and an empty selection, both
actions succeed without a single helper call and display the plural
success message with count 0. -/
theorem empty_queryset_success :
    invalidate_cache true [] =
      { calls := [], messages := ["Cache of 0 templates successfully invalidated."],
        templates := [] } ∧
    repopulate_cache true [] =
      { calls := [], messages := ["Cache successfully repopulated with 0 templates."],
        templates := [] } :=
  ⟨rfl, rfl⟩

/-- A single-quote character, used inside the generated editor script. -/
def squote : String := String.mk [Char.ofNat 39]

/-- The CodeMirror bootstrap script appended by the widget, with the
`media_prefix` and `name` interpolations of the source applied. -/
def codemirror_script (mediaPfx nm : String) : String :=
  "\n<script type=\"text/javascript\">\n  var editor = CodeMirror.fromTextArea(" ++
  squote ++ "id_" ++ nm ++ squote ++ ", \x7b\n    path: \"" ++ mediaPfx ++
  "js/\",\n    parserfile: \"parsedjango.js\",\n    stylesheet: \"" ++ mediaPfx ++
  "css/django.css\",\n    continuousScanning: 500,\n    height: \"40.2em\",\n" ++
  "    tabMode: \"shift\",\n    indentUnit: 4,\n    lineNumbers: true\n  \x7d);\n" ++
  "</script>\n"

/-- `CodeMirrorTextArea.render`: the base `Textarea` rendering (the base
class lives in the host framework, so it is passed in abstractly), followed
by the editor script when `USE_CODEMIRROR` is enabled; the pieces are
joined with `u"".join(result)`. -/
def CodeMirrorTextArea_render (use_codemirror : Bool) (mediaPfx : String)
    (base_render : String → Option String → Option (List (String × String)) → String)
    (nm : String) (value : Option String)
    (attrs : Option (List (String × String))) : String :=
  String.join ([base_render nm value attrs] ++
    (if use_codemirror then [codemirror_script mediaPfx nm] else []))

/-- C4: for every field name, value and attribute set (and every base
rendering), the widget renders the base textarea followed by the editor
script when `USE_CODEMIRROR` is enabled, and exactly the base textarea
rendering when it is disabled. -/
theorem codemirror_render_spec (mediaPfx : String)
    (base_render : String → Option String → Option (List (String × String)) → String)
    (nm : String) (value : Option String)
    (attrs : Option (List (String × String))) :
    CodeMirrorTextArea_render true mediaPfx base_render nm value attrs =
      base_render nm value attrs ++ codemirror_script mediaPfx nm ∧
    CodeMirrorTextArea_render false mediaPfx base_render nm value attrs =
      base_render nm value attrs := by
  constructor <;> simp [CodeMirrorTextArea_render, String.join]

/-- The admin base class alternatives: reversion `VersionAdmin` when the
versioning add-on is installed, the standard `ModelAdmin` otherwise. -/
inductive AdminBase where
  | versionAdmin
  | modelAdmin
deriving Repr, DecidableEq

/-- The conditional import at the top of the file: `USE_REVERSION` selects
which class is bound to the name `TemplateModelAdmin`. -/
def TemplateModelAdmin (use_reversion : Bool) : AdminBase :=
  if use_reversion then AdminBase.versionAdmin else AdminBase.modelAdmin

/-- One admin fieldset: optional title, rows of field names, CSS classes. -/
structure Fieldset where
  title : Option String
  fields : List (List String)
  classes : List String
deriving Repr, DecidableEq

/-- The class-level configuration of `TemplateAdmin`. `actions` is `none`
when the class body never defines the attribute. -/
structure TemplateAdminConfig where
  base : AdminBase
  form : String
  fieldsets : List Fieldset
  list_display : List String
  list_filter : List String
  search_fields : List String
  actions : Option (List String)
deriving Repr, DecidableEq

/-- The `TemplateAdmin` class as configured in the source, as a function of
the two ambient settings read at class-definition time: `USE_REVERSION`
(base-class choice) and the truthiness of the cache `backend` (whether the
`actions` attribute is defined at all). -/
def TemplateAdmin (use_reversion : Bool) (backend : Bool) : TemplateAdminConfig :=
  { base := TemplateModelAdmin use_reversion,
    form := "TemplateAdminForm",
    fieldsets := [
      { title := none, fields := [["name"], ["content"], ["sites"]],
        classes := ["monospace"] },
      { title := some "Date/time", fields := [["creation_date", "last_changed"]],
        classes := ["collapse"] }],
    list_display := ["name", "creation_date", "last_changed", "site_list"],
    list_filter := ["sites"],
    search_fields := ["name", "content"],
    actions := if backend then some ["invalidate_cache", "repopulate_cache"] else none }

/-- C5: the class defines the actions list
`["invalidate_cache", "repopulate_cache"]` if and only if a cache backend
is configured; with no backend the attribute is not defined at all, so the
dropdown exposes neither action. -/
theorem actions_defined_iff_backend (use_reversion backend : Bool) :
    ((TemplateAdmin use_reversion backend).actions =
        some ["invalidate_cache", "repopulate_cache"] ↔ backend = true) ∧
    ((TemplateAdmin use_reversion backend).actions = none ↔ backend = false) := by
  cases backend <;> simp [TemplateAdmin]

/-- C6: `USE_REVERSION` selects the base class (`VersionAdmin` when
enabled, `ModelAdmin` otherwise) and nothing else: every other part of the
admin configuration is identical for both settings. -/
theorem base_class_selection (use_reversion backend : Bool) :
    (TemplateAdmin use_reversion backend).base =
      (if use_reversion then AdminBase.versionAdmin else AdminBase.modelAdmin) ∧
    (∀ r₂ : Bool,
      (TemplateAdmin use_reversion backend).form = (TemplateAdmin r₂ backend).form ∧
      (TemplateAdmin use_reversion backend).fieldsets =
        (TemplateAdmin r₂ backend).fieldsets ∧
      (TemplateAdmin use_reversion backend).list_display =
        (TemplateAdmin r₂ backend).list_display ∧
      (TemplateAdmin use_reversion backend).list_filter =
        (TemplateAdmin r₂ backend).list_filter ∧
      (TemplateAdmin use_reversion backend).search_fields =
        (TemplateAdmin r₂ backend).search_fields ∧
      (TemplateAdmin use_reversion backend).actions =
        (TemplateAdmin r₂ backend).actions) :=
  ⟨rfl, fun _ => ⟨rfl, rfl, rfl, rfl, rfl, rfl⟩⟩

/-- A form field declaration as the admin form makes one: widget attributes,
help text and the `required` flag. -/
structure FormField where
  widget_attrs : List (String × String)
  help_text : String
  required : Bool
deriving Repr, DecidableEq

/-- The `content` field declared on `TemplateAdminForm`. -/
def TemplateAdminForm_content : FormField :=
  { widget_attrs := [("rows", "24")],
    help_text := "Leaving this empty causes Django to look for a template " ++
      "with the given name and populate this field with its content.",
    required := false }

/-- The framework required-field check applied to a submitted value: a
required field rejects the empty value, everything else is accepted. -/
def validate_required (field : FormField) (value : String) : Except String String :=
  if field.required ∧ value = "" then Except.error "This field is required."
  else Except.ok value

/-- C10: the `content` field is declared with `required=False`, so the
required-field check accepts every submitted value, the empty one
included. -/
theorem content_not_required :
    TemplateAdminForm_content.required = false ∧
    (∀ value : String,
      validate_required TemplateAdminForm_content value = Except.ok value) := by
  refine ⟨rfl, fun value => ?_⟩
  simp [validate_required, TemplateAdminForm_content]

end Dbtemplates
